import Mathlib

/-!
Verification of the Riva vault SDK's exchange-calculation and
transaction-building core.

The numeric engine (`calculateOutputAmount`, `calculateInputAmount`) is
translated from `src/unnamed/part_001`.  The source computes with the
`bignumber.js` library configured with `DECIMAL_PLACES: 18` and
`ROUNDING_MODE: ROUND_DOWN`.  Under that configuration:
multiplication of integers is exact; division of nonnegative integers
produces the exact quotient truncated to 18 decimal places
(so `x.div(y)` denotes the rational `⌊x·10¹⁸/y⌋ / 10¹⁸`); comparisons
are exact; and `integerValue()` with ROUND_DOWN truncates toward zero.
We therefore embed every 18-decimal-place intermediate value as its
numerator scaled by `E18 = 10¹⁸`, which represents the source
arithmetic exactly for integer inputs.

One further consequence of that configuration matters: the functions
return `BigInt(result.integerValue().toString())`, and with
`EXPONENTIAL_AT: [-18, 18]` the `toString()` of any integer at or above
`10¹⁸` is rendered in exponential notation (`"1e+18"`), which `BigInt`
cannot parse — the conversion then throws a JavaScript `SyntaxError`.
Results in `[10¹⁸, MAX_U64]` therefore never survive the final
conversion, although the code's own post-check admits them.
-/

/-- Error codes of the SDK's `VaultErrorCode` enum (`src/unnamed/part_002`). -/
inductive VaultErrorCode where
  | INVALID_PARAMETERS
  | VALIDATION_ERROR
  | INSUFFICIENT_BALANCE
  | INSUFFICIENT_RESERVES
  | TRANSACTION_FAILED
  | NETWORK_ERROR
  | TIMEOUT
  | RATE_LIMIT_EXCEEDED
  | UNAUTHORIZED
  | ARITHMETIC_OVERFLOW
  | DIVISION_BY_ZERO
  | UNKNOWN_ERROR
deriving DecidableEq, Repr

/-- Errors surfaced by the SDK: structured `VaultError`s carrying a code, or
plain JavaScript `Error`s (thrown by the validators in
`src/src/utils/validators.ts` and by BCS argument serialization) carrying
only a message. -/
inductive SdkErr where
  | vault (code : VaultErrorCode)
  | generic (msg : String)
deriving DecidableEq, Repr

/-- Errors raised by the numeric engine: structured `VaultError`s, or the
JavaScript `SyntaxError` thrown by the final
`BigInt(result.integerValue().toString())` conversion when the integer
result is at least `10^18` and so stringifies in exponential notation
under `EXPONENTIAL_AT: [-18, 18]`. -/
inductive CalcError where
  | vaultErr (code : VaultErrorCode)
  | bigintConversionErr
deriving DecidableEq, Repr

instance {ε α : Type} [DecidableEq ε] [DecidableEq α] : DecidableEq (Except ε α) := by
  intro a b
  cases a <;> cases b
  case error.error e₁ e₂ =>
    cases h : decide (e₁ = e₂)
    · exact isFalse (by simp at h; intro hc; cases hc; exact h rfl)
    · exact isTrue (by simp at h; rw [h])
  case ok.ok v₁ v₂ =>
    cases h : decide (v₁ = v₂)
    · exact isFalse (by simp at h; intro hc; cases hc; exact h rfl)
    · exact isTrue (by simp at h; rw [h])
  case error.ok e v => exact isFalse (by intro hc; cases hc)
  case ok.error v e => exact isFalse (by intro hc; cases hc)

/-- Maximum u64 value, `MAX_U64` in `src/src/constants/index.ts`. -/
def MAX_U64 : Nat := 18446744073709551615

/-- Scale factor for 18-decimal-place BigNumber intermediates. -/
def E18 : Nat := 10 ^ 18

/-- Core of `calculateOutputAmount` after the sign checks, on the
nonnegative integers `r = rate`, `a = inputValue`.  Mirrors the source line
by line, with every 18-decimal-place BigNumber value scaled by `E18`:
`maxInput = MAX_U64.div(rate)` becomes `MAX_U64 * E18 / r` (scaled), the
overflow test `inputBN.gt(maxInput)` becomes `a * E18 > MAX_U64 * E18 / r`,
`result = rate·input / 10^d` (truncated to 18 places) becomes
`r * a * E18 / 10 ^ d`, and the post-check `result.gt(MAX_U64)` compares
that scaled value with `MAX_U64 * E18`.  The return statement
`BigInt(result.integerValue().toString())` first truncates toward zero
(ROUND_DOWN; the division by `E18` here) and then stringifies: an integer
at or above `10 ^ 18` renders exponentially under
`EXPONENTIAL_AT: [-18, 18]` and makes `BigInt` throw — the
`bigintConversionErr` branch. -/
def calcOutputCore (r a d : Nat) : Except CalcError Nat :=
  if a * E18 > MAX_U64 * E18 / r then
    .error (.vaultErr .ARITHMETIC_OVERFLOW)
  else if r * a * E18 / 10 ^ d > MAX_U64 * E18 then
    .error (.vaultErr .ARITHMETIC_OVERFLOW)
  else if r * a * E18 / 10 ^ d / E18 ≥ 10 ^ 18 then
    .error .bigintConversionErr
  else
    .ok (r * a * E18 / 10 ^ d / E18)

/-- Translation of `calculateOutputAmount` (`src/unnamed/part_001`): integer
inputs (`string | bigint` in the source) are modelled as `Int`; the checks
`rateBN.lte(0)` and `inputBN.lt(0)` precede the arithmetic, which then
operates on the (now provably nonnegative) operands. -/
def calculateOutputAmount (rate inputValue : Int) (rateDecimals : Nat) :
    Except CalcError Nat :=
  if rate ≤ 0 then .error (.vaultErr .DIVISION_BY_ZERO)
  else if inputValue < 0 then .error (.vaultErr .INVALID_PARAMETERS)
  else calcOutputCore rate.toNat inputValue.toNat rateDecimals

/-- Core of `calculateInputAmount` after the sign checks: the overflow
pre-check is against the multiplier `10^d` instead of the rate, the
computation is `outputValue · 10^d / rate` truncated to 18 decimal places
and then to an integer, and the same final BigInt conversion rejects
integer results at or above `10 ^ 18`. -/
def calcInputCore (r o d : Nat) : Except CalcError Nat :=
  if o * E18 > MAX_U64 * E18 / 10 ^ d then
    .error (.vaultErr .ARITHMETIC_OVERFLOW)
  else if o * 10 ^ d * E18 / r > MAX_U64 * E18 then
    .error (.vaultErr .ARITHMETIC_OVERFLOW)
  else if o * 10 ^ d * E18 / r / E18 ≥ 10 ^ 18 then
    .error .bigintConversionErr
  else
    .ok (o * 10 ^ d * E18 / r / E18)

/-- Translation of `calculateInputAmount` (`src/unnamed/part_001`). -/
def calculateInputAmount (rate outputValue : Int) (rateDecimals : Nat) :
    Except CalcError Nat :=
  if rate ≤ 0 then .error (.vaultErr .DIVISION_BY_ZERO)
  else if outputValue < 0 then .error (.vaultErr .INVALID_PARAMETERS)
  else calcInputCore rate.toNat outputValue.toNat rateDecimals

lemma E18_pos : 0 < E18 := by
  unfold E18
  positivity

/-- Dividing a scaled quotient back down by the scale recovers the plain
truncated quotient. -/
lemma scaled_div_div (n m : Nat) : n * E18 / m / E18 = n / m := by
  rw [Nat.div_div_eq_div_mul, mul_comm m E18, ← Nat.div_div_eq_div_mul,
    Nat.mul_div_cancel n E18_pos]

/-- The source's 18-decimal-place overflow pre-check agrees with the exact
integer-division bound: for an integer `a` and positive divisor `r`,
`a > trunc₁₈(M/r)` iff `a > ⌊M/r⌋`. -/
lemma scaled_gt_iff (M₀ r a : Nat) (hr : 0 < r) :
    M₀ * E18 / r < a * E18 ↔ M₀ / r < a := by
  rw [← Nat.not_le, ← Nat.not_le]
  apply not_congr
  rw [Nat.le_div_iff_mul_le hr, Nat.le_div_iff_mul_le hr]
  constructor
  · intro h
    have h' : a * r * E18 ≤ M₀ * E18 := by
      calc a * r * E18 = a * E18 * r := by ring
        _ ≤ M₀ * E18 := h
    exact Nat.le_of_mul_le_mul_right h' E18_pos
  · intro h
    calc a * E18 * r = a * r * E18 := by ring
      _ ≤ M₀ * E18 := Nat.mul_le_mul_right E18 h

lemma mul_le_of_le_div {a r M₀ : Nat} (h : a ≤ M₀ / r) : a * r ≤ M₀ :=
  le_trans (Nat.mul_le_mul_right r h) (Nat.div_mul_le_self M₀ r)

/-- C1: for every rate `r > 0`, input amount `a ≥ 0` and `rateDecimals d` in
`[0, 18]` for which it does not raise, `calculateOutputAmount r a d` returns
exactly `⌊r · a / 10^d⌋`, truncating toward zero and never rounding up. -/
theorem calculateOutputAmount_floor (r a d : Nat) (hr : 0 < r) (hd : d ≤ 18)
    (v : Nat) (h : calculateOutputAmount (r : Int) (a : Int) d = .ok v) :
    v = r * a / 10 ^ d := by
  unfold calculateOutputAmount at h
  rw [if_neg (by omega), if_neg (by omega)] at h
  rw [Int.toNat_natCast, Int.toNat_natCast] at h
  unfold calcOutputCore at h
  split at h
  · exact absurd h (by simp)
  · split at h
    · exact absurd h (by simp)
    · split at h
      · exact absurd h (by simp)
      · rw [scaled_div_div] at h
        exact (Except.ok.injEq _ _).mp h.symm

/-- Witness for C1 at the spec's scenario: rate 2.0 (2000000000 with 9
decimals) applied to 1000000000 base units yields 2000000000. -/
theorem calculateOutputAmount_floor_witness :
    calculateOutputAmount 2000000000 1000000000 9 = .ok 2000000000 ∧
      (2000000000 : Nat) = 2000000000 * 1000000000 / 10 ^ 9 := by
  refine ⟨by decide, ?_⟩
  exact calculateOutputAmount_floor 2000000000 1000000000 9 (by decide)
    (by decide) 2000000000 (by decide)

/-- C2: over the u64 domain, `calculateOutputAmount` raises DivisionByZero
exactly when the rate is zero, and raises ArithmeticOverflow exactly when
the rate is positive and the input amount exceeds `⌊MAX_U64 / r⌋` (the
BigInt conversion failure for large in-range results is a different,
unstructured error and raises neither of these two codes). -/
theorem calculateOutputAmount_error_conditions (r a d : Nat)
    (hr : r ≤ MAX_U64) (ha : a ≤ MAX_U64) (hd : d ≤ 18) :
    (calculateOutputAmount (r : Int) (a : Int) d =
        .error (.vaultErr .DIVISION_BY_ZERO) ↔ r = 0) ∧
    (calculateOutputAmount (r : Int) (a : Int) d =
        .error (.vaultErr .ARITHMETIC_OVERFLOW) ↔
      0 < r ∧ MAX_U64 / r < a) := by
  unfold calculateOutputAmount
  by_cases hr0 : r = 0
  · subst hr0
    rw [if_pos (by omega)]
    exact ⟨by simp, by simp⟩
  · have hrpos : 0 < r := Nat.pos_of_ne_zero hr0
    rw [if_neg (by omega), if_neg (by omega), Int.toNat_natCast,
      Int.toNat_natCast]
    unfold calcOutputCore
    by_cases hpre : MAX_U64 * E18 / r < a * E18
    · rw [if_pos hpre]
      have := (scaled_gt_iff MAX_U64 r a hrpos).mp hpre
      exact ⟨by simp [hr0], by simp [hrpos, this]⟩
    · rw [if_neg hpre]
      have hle : a ≤ MAX_U64 / r := by
        by_contra hgt
        exact hpre ((scaled_gt_iff MAX_U64 r a hrpos).mpr (by omega))
      have hra : r * a ≤ MAX_U64 := by
        rw [mul_comm]
        exact mul_le_of_le_div hle
      have hpost : ¬ (MAX_U64 * E18 < r * a * E18 / 10 ^ d) := by
        have h1 : r * a * E18 / 10 ^ d ≤ r * a * E18 := Nat.div_le_self _ _
        have h2 : r * a * E18 ≤ MAX_U64 * E18 := Nat.mul_le_mul_right E18 hra
        omega
      rw [if_neg hpost]
      have hnot : ¬ (MAX_U64 / r < a) := by omega
      by_cases hbig : r * a * E18 / 10 ^ d / E18 ≥ 10 ^ 18
      · rw [if_pos hbig]
        exact ⟨by simp [hr0], by simp [hnot]⟩
      · rw [if_neg hbig]
        exact ⟨by simp [hr0], by simp [hnot]⟩

/-- Witness for C2: rate 0 raises DivisionByZero, and rate 2 with input
`MAX_U64 / 2 + 1` raises ArithmeticOverflow. -/
theorem calculateOutputAmount_error_conditions_witness :
    calculateOutputAmount ((0 : Nat) : Int) ((5 : Nat) : Int) 9 =
        .error (.vaultErr .DIVISION_BY_ZERO) ∧
      calculateOutputAmount ((2 : Nat) : Int)
          ((9223372036854775808 : Nat) : Int) 9 =
        .error (.vaultErr .ARITHMETIC_OVERFLOW) := by
  constructor
  · exact (calculateOutputAmount_error_conditions 0 5 9 (by decide)
      (by decide) (by decide)).1.mpr rfl
  · exact (calculateOutputAmount_error_conditions 2 9223372036854775808 9
      (by decide) (by decide) (by decide)).2.mpr ⟨by decide, by decide⟩

/-- C3 fails on the source code: rate 1, input `10^18`, decimals 0 lies
inside the claimed safe range (`10^18 ≤ ⌊MAX_U64 / 1⌋`) and passes both
overflow checks, yet the call raises: the result `10^18` stringifies as
`"1e+18"` and the final BigInt conversion throws a SyntaxError.  The code's
own post-check deliberately admits results up to `MAX_U64`, so every
result in `[10^18, MAX_U64]` is intended to be returned but never is. -/
theorem calculateOutputAmount_exponential_failure :
    calculateOutputAmount ((1 : Nat) : Int) ((10 ^ 18 : Nat) : Int) 0 =
      .error .bigintConversionErr ∧
    (10 ^ 18 : Nat) ≤ MAX_U64 / 1 ∧ (10 ^ 18 : Nat) ≤ MAX_U64 := by
  refine ⟨by decide, by decide, by decide⟩

/-- C4 fails on the source code: at rate 1, amount `9.9 × 10^18` (within
the u64 domain), decimals 1, the forward conversion succeeds with
`9.9 × 10^17` — below the exponential-notation threshold — but the inverse
computes `9.9 × 10^18`, which stringifies as `"9.9e+18"` and makes the
final BigInt conversion throw: the round trip raises instead of yielding a
value `≤ a`. -/
theorem roundTrip_exponential_failure :
    calculateOutputAmount ((1 : Nat) : Int)
        ((9900000000000000000 : Nat) : Int) 1 =
      .ok 990000000000000000 ∧
    calculateInputAmount ((1 : Nat) : Int)
        ((990000000000000000 : Nat) : Int) 1 =
      .error .bigintConversionErr ∧
    (9900000000000000000 : Nat) ≤ MAX_U64 := by
  refine ⟨by decide, by decide, by decide⟩

/-!
Validation layer, translated from `src/src/utils/validators.ts`.  JavaScript
strings are modelled as Lean `String`s and examined through their character
lists; the regular expressions of the source are expanded into the character
classes they denote.
-/

/-- Character class of the regex `[0-9a-fA-F]`. -/
def isHexChar (c : Char) : Bool :=
  ('0' ≤ c && c ≤ '9') || ('a' ≤ c && c ≤ 'f') || ('A' ≤ c && c ≤ 'F')

/-- Validity check of `isValidSuiAddress` on the character list of the input:
the string must start with `0x` (so have at least two characters), the rest
must match `^[0-9a-fA-F]+$` (nonempty, all hex), and its length must be at
most 64 (the `hex.length === 0` test is subsumed by the regex `+`). -/
def isValidSuiAddressL (cs : List Char) : Bool :=
  match cs with
  | c1 :: c2 :: hex =>
      c1 == '0' && c2 == 'x' && !hex.isEmpty && hex.all isHexChar &&
        decide (hex.length ≤ 64)
  | _ => false

/-- Translation of `isValidSuiAddress`. -/
def isValidSuiAddress (s : String) : Bool :=
  isValidSuiAddressL s.data

/-- Translation of `validateSuiAddress`: rejects invalid addresses, and
normalizes valid ones by left-padding the hex portion with `'0'` to 64
digits (`hex.padStart(64, '0')`). -/
def validateSuiAddress (s : String) : Except SdkErr String :=
  if isValidSuiAddress s then
    .ok (String.mk ('0' :: 'x' ::
      (List.replicate (64 - (s.data.drop 2).length) '0' ++ s.data.drop 2)))
  else
    .error (.generic ("Invalid Sui address: " ++ s))

/-- Identifier check of the regex `^[a-zA-Z_][a-zA-Z0-9_]*$` used for module
and struct names. -/
def isIdentString (s : String) : Bool :=
  match s.data with
  | [] => false
  | c :: rest =>
      (c.isAlpha || c == '_') &&
        rest.all (fun d => d.isAlpha || d.isDigit || d == '_')

/-- Split a character list at each (non-overlapping, leftmost) occurrence of
the separator `::`, as JavaScript's `split('::')` does. -/
def splitDoubleColon : List Char → List Char → List (List Char)
  | [], acc => [acc.reverse]
  | ':' :: ':' :: rest, acc => acc.reverse :: splitDoubleColon rest []
  | c :: rest, acc => splitDoubleColon rest (c :: acc)

/-- Translation of `isValidCoinType`: exactly three `::`-separated parts; the
first a valid address, the other two identifiers. -/
def isValidCoinType (s : String) : Bool :=
  match splitDoubleColon s.data [] with
  | [addr, md, st] =>
      isValidSuiAddressL addr && isIdentString (String.mk md) &&
        isIdentString (String.mk st)
  | _ => false

/-- Translation of `validateCoinType` (throws a plain `Error`). -/
def validateCoinType (s : String) : Except SdkErr String :=
  if isValidCoinType s then .ok s
  else .error (.generic ("Invalid coin type format: " ++ s))

/-- Translation of `validateRate` for integer inputs: `isValidRate` demands a
parseable value that is `> 0n`, so nonpositive rates fail with the
`Invalid rate` error (the later `<= 0n` recheck is unreachable). -/
def validateRate (rate : Int) : Except SdkErr Int :=
  if rate ≤ 0 then .error (.generic ("Invalid rate: " ++ toString rate))
  else .ok rate

/-- Translation of `validateRateDecimals` for natural-number inputs (the
`Number.isInteger` and `< 0` tests cannot fail on `Nat`). -/
def validateRateDecimals (decimals : Nat) : Except SdkErr Nat :=
  if decimals > 18 then
    .error (.generic ("Invalid rate decimals: " ++ toString decimals ++
      ". Must be integer between 0 and 18."))
  else .ok decimals

/-- Translation of `validateStringLength` with explicit bounds. -/
def validateStringLength (value : String) (lo hi : Nat) (fieldName : String) :
    Except SdkErr String :=
  if value.length < lo then
    .error (.generic (fieldName ++ " must be at least " ++ toString lo ++
      " characters long"))
  else if value.length > hi then
    .error (.generic (fieldName ++ " must be at most " ++ toString hi ++
      " characters long"))
  else .ok value

/-- Translation of `validateUrl`.  The source delegates to the platform's
`new URL(...)` parser, an external collaborator; its acceptance predicate is
therefore a parameter `urlValid`. -/
def validateUrl (urlValid : String → Bool) (url : String) :
    Except SdkErr String :=
  if urlValid url then .ok url
  else .error (.generic ("Invalid URL: " ++ url))

/-- Vault configuration record consumed by `validateVaultConfig` and
`buildCreateVaultTx`. -/
structure VaultConfig where
  rate : Int
  rateDecimals : Nat
  symbol : String
  name : String
  description : String
  inputCoinType : String
  outputCoinType : String
  iconUrl : Option String := none
deriving DecidableEq, Repr

/-- Translation of `validateVaultConfig`: the sequence of throwing
validators, in source order; `if (config.iconUrl)` is truthy only for a
present, nonempty string. -/
def validateVaultConfig (urlValid : String → Bool) (c : VaultConfig) :
    Except SdkErr Unit := do
  _ ← validateRate c.rate
  _ ← validateRateDecimals c.rateDecimals
  _ ← validateStringLength c.symbol 1 32 "Symbol"
  _ ← validateStringLength c.name 1 256 "Name"
  _ ← validateStringLength c.description 1 1000 "Description"
  _ ← validateCoinType c.inputCoinType
  _ ← validateCoinType c.outputCoinType
  match c.iconUrl with
  | some u =>
      if u.length > 0 then do
        _ ← validateUrl urlValid u
        pure ()
      else
        pure ()
  | none => pure ()

/-- Spec-side reading of the composite validation: the ordered list of the
individual constraint checks named by the specification. -/
def vaultConfigChecks (urlValid : String → Bool) (c : VaultConfig) :
    List (Except SdkErr Unit) :=
  [ (validateRate c.rate).map (fun _ => ()),
    (validateRateDecimals c.rateDecimals).map (fun _ => ()),
    (validateStringLength c.symbol 1 32 "Symbol").map (fun _ => ()),
    (validateStringLength c.name 1 256 "Name").map (fun _ => ()),
    (validateStringLength c.description 1 1000 "Description").map
      (fun _ => ()),
    (validateCoinType c.inputCoinType).map (fun _ => ()),
    (validateCoinType c.outputCoinType).map (fun _ => ()),
    (match c.iconUrl with
     | some u =>
         if u.length > 0 then (validateUrl urlValid u).map (fun _ => ())
         else Except.ok ()
     | none => Except.ok ()) ]

/-- First failure of an ordered list of checks; later checks are never
consulted once one fails. -/
def firstFailure : List (Except SdkErr Unit) → Except SdkErr Unit
  | [] => .ok ()
  | .error e :: _ => .error e
  | .ok _ :: rest => firstFailure rest

lemma isValidSuiAddressL_iff (cs : List Char) :
    isValidSuiAddressL cs = true ↔
      ∃ h : List Char, cs = '0' :: 'x' :: h ∧ h ≠ [] ∧
        h.all isHexChar = true ∧ h.length ≤ 64 := by
  cases cs with
  | nil => simp [isValidSuiAddressL]
  | cons c1 t =>
    cases t with
    | nil => simp [isValidSuiAddressL]
    | cons c2 hex =>
      simp only [isValidSuiAddressL, Bool.and_eq_true, beq_iff_eq,
        decide_eq_true_eq, Bool.not_eq_true', List.cons.injEq]
      constructor
      · rintro ⟨⟨⟨⟨h0, hx⟩, hne⟩, hall⟩, hlen⟩
        exact ⟨hex, ⟨h0, hx, rfl⟩, by
          intro hnil
          rw [hnil] at hne
          simp at hne, hall, hlen⟩
      · rintro ⟨h, ⟨h0, hx, hh⟩, hne, hall, hlen⟩
        subst hh
        refine ⟨⟨⟨⟨h0, hx⟩, ?_⟩, hall⟩, hlen⟩
        cases hex with
        | nil => exact absurd rfl hne
        | cons a t => simp

/-- C8: address validation accepts a string exactly when it is `0x` followed
by 1 to 64 hexadecimal digits, and normalization of an accepted address
left-pads the hex portion with zeros to exactly 64 digits (66 characters
with the `0x` prefix). -/
theorem suiAddress_validation_spec (s : String) :
    (isValidSuiAddress s = true ↔
      ∃ h : List Char, s.data = '0' :: 'x' :: h ∧ h ≠ [] ∧
        h.all isHexChar = true ∧ h.length ≤ 64) ∧
    (isValidSuiAddress s = true →
      validateSuiAddress s =
        .ok (String.mk ('0' :: 'x' ::
          (List.replicate (64 - (s.data.drop 2).length) '0' ++
            s.data.drop 2))) ∧
      ('0' :: 'x' :: (List.replicate (64 - (s.data.drop 2).length) '0' ++
          s.data.drop 2)).length = 66) := by
  constructor
  · exact isValidSuiAddressL_iff s.data
  · intro hv
    constructor
    · unfold validateSuiAddress
      rw [if_pos hv]
    · obtain ⟨h, heq, hne, hall, hlen⟩ :=
        (isValidSuiAddressL_iff s.data).mp hv
      rw [heq]
      simp only [List.drop, List.length_cons, List.length_append,
        List.length_replicate]
      omega

/-- Witness for C8: `0x1` is accepted and normalizes to `0x` followed by 63
zeros and a final `1`. -/
theorem suiAddress_validation_spec_witness :
    isValidSuiAddress "0x1" = true ∧
      validateSuiAddress "0x1" =
        .ok "0x0000000000000000000000000000000000000000000000000000000000000001" := by
  have h := (suiAddress_validation_spec "0x1").2 (by decide)
  refine ⟨by decide, ?_⟩
  rw [h.1]
  decide

/-- C9: the composite vault-configuration validator returns exactly the
first failing check of the ordered constraint list (rate, rate-decimals,
symbol 1–32, name 1–256, description 1–1000, input type, output type,
optional icon URL), short-circuiting at the first failure. -/
theorem validateVaultConfig_first_failure (urlValid : String → Bool)
    (c : VaultConfig) :
    validateVaultConfig urlValid c =
      firstFailure (vaultConfigChecks urlValid c) := by
  unfold validateVaultConfig vaultConfigChecks
  cases h1 : validateRate c.rate with
  | error e => simp [h1, firstFailure, Except.map, Bind.bind, Except.bind, pure, Except.pure]
  | ok r1 =>
  cases h2 : validateRateDecimals c.rateDecimals with
  | error e => simp [h1, h2, firstFailure, Except.map, Bind.bind, Except.bind, pure, Except.pure]
  | ok r2 =>
  cases h3 : validateStringLength c.symbol 1 32 "Symbol" with
  | error e =>
    simp [h1, h2, h3, firstFailure, Except.map, Bind.bind, Except.bind, pure, Except.pure]
  | ok r3 =>
  cases h4 : validateStringLength c.name 1 256 "Name" with
  | error e =>
    simp [h1, h2, h3, h4, firstFailure, Except.map, Bind.bind, Except.bind, pure, Except.pure]
  | ok r4 =>
  cases h5 : validateStringLength c.description 1 1000 "Description" with
  | error e =>
    simp [h1, h2, h3, h4, h5, firstFailure, Except.map, Bind.bind,
      Except.bind, pure, Except.pure]
  | ok r5 =>
  cases h6 : validateCoinType c.inputCoinType with
  | error e =>
    simp [h1, h2, h3, h4, h5, h6, firstFailure, Except.map, Bind.bind,
      Except.bind, pure, Except.pure]
  | ok r6 =>
  cases h7 : validateCoinType c.outputCoinType with
  | error e =>
    simp [h1, h2, h3, h4, h5, h6, h7, firstFailure, Except.map, Bind.bind,
      Except.bind, pure, Except.pure]
  | ok r7 =>
  cases hu : c.iconUrl with
  | none =>
    simp [h1, h2, h3, h4, h5, h6, h7, hu, firstFailure, Except.map,
      Bind.bind, Except.bind, pure, Except.pure]
  | some u =>
    by_cases hlen : u.length > 0
    · cases h8 : validateUrl urlValid u with
      | error e =>
        simp [h1, h2, h3, h4, h5, h6, h7, hu, hlen, h8, firstFailure,
          Except.map, Bind.bind, Except.bind, pure, Except.pure]
      | ok r8 =>
        simp [h1, h2, h3, h4, h5, h6, h7, hu, hlen, h8, firstFailure,
          Except.map, Bind.bind, Except.bind, pure, Except.pure]
    · simp [h1, h2, h3, h4, h5, h6, h7, hu, hlen, firstFailure, Except.map,
        Bind.bind, Except.bind, pure, Except.pure]

/-!
Call-builder layer, translated from `src/src/utils/transactions.ts` and the
`RivaClient` methods of `src/src/client/VaultClient.ts`.

A `Transaction` (the caller-owned accumulator from the Sui SDK) is modelled
as the list of appended commands; builder functions take the current list
and return the (possibly mutated) list together with a result or an error,
reflecting that a JavaScript exception leaves every already-appended
command in place.  Argument-construction helpers behave as the Sui SDK's
eagerly-serializing helpers do: `tx.pure.u64(v)` throws exactly when `v` is
not an integer in `[0, 2^64)`, `tx.pure.u8(v)` exactly when `v` is not in
`[0, 256)` (BCS serialization), while `tx.pure.string`, `tx.pure.vector('u8', …)`
on TextEncoder output, and `tx.object(...)` do not throw at build time.
Crucially, JavaScript evaluates a `moveCall`'s argument array before the
call is appended, so a serialization failure inside an argument list aborts
that `moveCall` before it is recorded — but leaves previously appended
commands (such as the create-vault option helpers) behind.
-/

/-- Argument of an appended command.  `pureVecU8 s` stands for
`tx.pure.vector('u8', Array.from(new TextEncoder().encode(s)))`: UTF-8
encoding is injective, so the argument is represented by its source
string. -/
inductive TxArg where
  | pureU64 (v : Nat)
  | pureU8 (v : Nat)
  | pureStr (s : String)
  | pureVecU8 (s : String)
  | pureAddr (a : String)
  | obj (id : String)
  | handle (idx : Nat)
deriving DecidableEq, Repr

/-- A command appended to the transaction accumulator. -/
inductive TxCommand where
  | moveCall (target : String) (typeArgs : List String) (args : List TxArg)
  | transferObjs (objs : List TxArg) (recipient : TxArg)
deriving DecidableEq, Repr

/-- The transaction accumulator: the ordered list of appended commands.
The handle returned for a `moveCall` appended at position `i` is
`TxArg.handle i`. -/
abbrev Tx := List TxCommand

/-- The Sui SDK's `TransactionObjectInput`: a raw object-id string or an
already-resolved transaction-local handle. -/
inductive TxObjectInput where
  | str (s : String)
  | handle (idx : Nat)
deriving DecidableEq, Repr

/-- The builders' recurring pattern
`typeof x === 'string' ? tx.object(x) : x`. -/
def TxObjectInput.toArg : TxObjectInput → TxArg
  | .str s => .obj s
  | .handle i => .handle i

/-- Helper call `0x1::option::none<Url>()` appended when no icon URL is
supplied. -/
def optionNoneCmd : TxCommand :=
  .moveCall "0x1::option::none" ["0x2::url::Url"] []

/-- Helper call `0x2::url::new_unsafe(iconUrl)`. -/
def urlNewCmd (s : String) : TxCommand :=
  .moveCall "0x2::url::new_unsafe" [] [.pureStr s]

/-- Helper call `0x1::option::some<Url>(urlVal)` wrapping the handle of the
URL-construction call at index `urlIdx`. -/
def optionSomeCmd (urlIdx : Nat) : TxCommand :=
  .moveCall "0x1::option::some" ["0x2::url::Url"] [.handle urlIdx]

/-- Parameters of `buildCreateVaultTx`: the `VaultConfig` fields plus the
treasury object. -/
structure CreateVaultParams where
  rate : Int
  outputCoinTreasury : TxObjectInput
  rateDecimals : Nat
  symbol : String
  name : String
  description : String
  iconUrl : Option String := none
  inputCoinType : String
  outputCoinType : String
deriving DecidableEq, Repr

/-- The main `create_vault` move call, with the argument order of the
source: rate (u64), treasury object, rate decimals (u8), UTF-8 byte vectors
of symbol/name/description, and the `Option<Url>` handle produced at
command index `optIdx`. -/
def createVaultMainCmd (packageId : String) (p : CreateVaultParams)
    (optIdx : Nat) : TxCommand :=
  .moveCall (packageId ++ "::vault::create_vault")
    [p.inputCoinType, p.outputCoinType]
    [ .pureU64 p.rate.toNat, p.outputCoinTreasury.toArg,
      .pureU8 p.rateDecimals, .pureVecU8 p.symbol, .pureVecU8 p.name,
      .pureVecU8 p.description, .handle optIdx ]

/-- Translation of `buildCreateVaultTx`: first the `Option<Url>` helper
call(s) are appended (`params.iconUrl && params.iconUrl.length > 0` chooses
the branch), then the argument array of the main call is evaluated —
`tx.pure.u64(rate)` and `tx.pure.u8(rateDecimals)` throw on unencodable
values, at which point the helper calls are already in the accumulator —
and finally the main call is appended. -/
def buildCreateVaultTx (tx : Tx) (packageId : String)
    (p : CreateVaultParams) : Except SdkErr Unit × Tx :=
  let aux : Tx :=
    match p.iconUrl with
    | some s =>
        if s.length > 0 then [urlNewCmd s, optionSomeCmd tx.length]
        else [optionNoneCmd]
    | none => [optionNoneCmd]
  let tx1 := tx ++ aux
  if 0 ≤ p.rate ∧ p.rate ≤ (MAX_U64 : Nat) then
    if p.rateDecimals ≤ 255 then
      (.ok (), tx1 ++ [createVaultMainCmd packageId p (tx1.length - 1)])
    else (.error (.generic "Invalid u8 value"), tx1)
  else (.error (.generic "Invalid u64 value"), tx1)

/-- The complete call sequence `buildCreateVaultTx` appends to an
accumulator of current length `tx.length` when every argument is
encodable. -/
def createVaultCalls (tx : Tx) (packageId : String) (p : CreateVaultParams) :
    Tx :=
  match p.iconUrl with
  | some s =>
      if s.length > 0 then
        [urlNewCmd s, optionSomeCmd tx.length,
          createVaultMainCmd packageId p (tx.length + 1)]
      else [optionNoneCmd, createVaultMainCmd packageId p tx.length]
  | none => [optionNoneCmd, createVaultMainCmd packageId p tx.length]

/-- Parameters of `buildMintTx` / the client `mint` methods. -/
structure MintParams where
  vaultId : String
  metadataId : String
  inputCoin : TxObjectInput
  inputCoinType : String
  outputCoinType : String
deriving DecidableEq, Repr

/-- Translation of `buildMintTx`: a single `mint` move call; returns the
minted coin handle. -/
def buildMintTx (tx : Tx) (packageId : String) (p : MintParams) :
    TxArg × Tx :=
  (.handle tx.length,
    tx ++ [.moveCall (packageId ++ "::vault::mint")
      [p.inputCoinType, p.outputCoinType]
      [.obj p.vaultId, .obj p.metadataId, p.inputCoin.toArg]])

/-- Parameters of `buildRedeemTx` / the client `redeem` methods. -/
structure RedeemParams where
  vaultId : String
  metadataId : String
  outputCoin : TxObjectInput
  inputCoinType : String
  outputCoinType : String
deriving DecidableEq, Repr

/-- Translation of `buildRedeemTx`: a single `redeem` move call; returns the
redeemed coin handle. -/
def buildRedeemTx (tx : Tx) (packageId : String) (p : RedeemParams) :
    TxArg × Tx :=
  (.handle tx.length,
    tx ++ [.moveCall (packageId ++ "::vault::redeem")
      [p.inputCoinType, p.outputCoinType]
      [.obj p.vaultId, .obj p.metadataId, p.outputCoin.toArg]])

/-- Parameters of `buildDepositTx`. -/
structure DepositParams where
  ownerCap : TxObjectInput
  vaultId : String
  inputCoin : TxObjectInput
  inputCoinType : String
  outputCoinType : String
deriving DecidableEq, Repr

/-- Translation of `buildDepositTx`: a single owner-gated `deposit` call. -/
def buildDepositTx (tx : Tx) (packageId : String) (p : DepositParams) :
    Unit × Tx :=
  ((),
    tx ++ [.moveCall (packageId ++ "::vault::deposit")
      [p.inputCoinType, p.outputCoinType]
      [p.ownerCap.toArg, .obj p.vaultId, p.inputCoin.toArg]])

/-- Parameters of `buildWithdrawTx`. -/
structure WithdrawParams where
  ownerCap : TxObjectInput
  vaultId : String
  amount : Int
  inputCoinType : String
  outputCoinType : String
deriving DecidableEq, Repr

/-- Translation of `buildWithdrawTx`: the argument array — including
`tx.pure.u64(amount)`, which throws on a non-u64 amount — is evaluated
before the single `withdraw` call is appended, so a serialization failure
leaves the accumulator untouched. -/
def buildWithdrawTx (tx : Tx) (packageId : String) (p : WithdrawParams) :
    Except SdkErr TxArg × Tx :=
  if 0 ≤ p.amount ∧ p.amount ≤ (MAX_U64 : Nat) then
    (.ok (.handle tx.length),
      tx ++ [.moveCall (packageId ++ "::vault::withdraw")
        [p.inputCoinType, p.outputCoinType]
        [p.ownerCap.toArg, .obj p.vaultId, .pureU64 p.amount.toNat]])
  else (.error (.generic "Invalid u64 value"), tx)

/-- Parameters of `buildSetRateTx`. -/
structure SetRateParams where
  ownerCap : TxObjectInput
  vaultId : String
  newRate : Int
  inputCoinType : String
  outputCoinType : String
deriving DecidableEq, Repr

/-- Translation of `buildSetRateTx`: like withdraw, `tx.pure.u64(newRate)`
is evaluated before the single `set_rate` call is appended. -/
def buildSetRateTx (tx : Tx) (packageId : String) (p : SetRateParams) :
    Except SdkErr Unit × Tx :=
  if 0 ≤ p.newRate ∧ p.newRate ≤ (MAX_U64 : Nat) then
    (.ok (),
      tx ++ [.moveCall (packageId ++ "::vault::set_rate")
        [p.inputCoinType, p.outputCoinType]
        [p.ownerCap.toArg, .obj p.vaultId, .pureU64 p.newRate.toNat]])
  else (.error (.generic "Invalid u64 value"), tx)

/-- The object-id shape check `RivaClient.isObjectIdString`:
`/^0x[0-9a-fA-F]{64}$/`. -/
def isObjectIdString (s : String) : Bool :=
  match s.data with
  | c1 :: c2 :: hex =>
      c1 == '0' && c2 == 'x' && decide (hex.length = 64) &&
        hex.all isHexChar
  | _ => false

namespace RivaClient

/-- Translation of `RivaClient.mint`: validates both coin types, then — for
a string `inputCoin` only — requires an object-id-shaped string, raising
`VaultError(INVALID_PARAMETERS)` otherwise, and finally delegates to
`buildMintTx`. -/
def mint (packageId : String) (p : MintParams) (tx : Tx) :
    Except SdkErr TxArg × Tx :=
  if ¬ isValidCoinType p.inputCoinType then
    (.error (.generic ("Invalid coin type format: " ++ p.inputCoinType)), tx)
  else if ¬ isValidCoinType p.outputCoinType then
    (.error (.generic ("Invalid coin type format: " ++ p.outputCoinType)), tx)
  else
    match p.inputCoin with
    | .str s =>
        if ¬ isObjectIdString s then
          (.error (.vault .INVALID_PARAMETERS), tx)
        else
          let r := buildMintTx tx packageId p
          (.ok r.1, r.2)
    | .handle _ =>
        let r := buildMintTx tx packageId p
        (.ok r.1, r.2)

/-- Translation of `RivaClient.mint_and_transfer`: identical validation and
mint build, followed by a `transferObjects` of the minted handle to the
recipient. -/
def mint_and_transfer (packageId : String) (p : MintParams)
    (recipient : String) (tx : Tx) : Except SdkErr Unit × Tx :=
  if ¬ isValidCoinType p.inputCoinType then
    (.error (.generic ("Invalid coin type format: " ++ p.inputCoinType)), tx)
  else if ¬ isValidCoinType p.outputCoinType then
    (.error (.generic ("Invalid coin type format: " ++ p.outputCoinType)), tx)
  else
    match p.inputCoin with
    | .str s =>
        if ¬ isObjectIdString s then
          (.error (.vault .INVALID_PARAMETERS), tx)
        else
          let r := buildMintTx tx packageId p
          (.ok (), r.2 ++ [.transferObjs [r.1] (.pureAddr recipient)])
    | .handle _ =>
        let r := buildMintTx tx packageId p
        (.ok (), r.2 ++ [.transferObjs [r.1] (.pureAddr recipient)])

/-- Translation of `RivaClient.redeem`: validates both coin types and
delegates to `buildRedeemTx`; the source's
`typeof params.outputCoin === 'string' ? params.outputCoin : params.outputCoin`
is the identity, so no object-id shape check is performed on a string
`outputCoin`. -/
def redeem (packageId : String) (p : RedeemParams) (tx : Tx) :
    Except SdkErr TxArg × Tx :=
  if ¬ isValidCoinType p.inputCoinType then
    (.error (.generic ("Invalid coin type format: " ++ p.inputCoinType)), tx)
  else if ¬ isValidCoinType p.outputCoinType then
    (.error (.generic ("Invalid coin type format: " ++ p.outputCoinType)), tx)
  else
    let r := buildRedeemTx tx packageId p
    (.ok r.1, r.2)

/-- Translation of `RivaClient.redeem_and_transfer`: unlike plain `redeem`,
a string `outputCoin` must be object-id shaped, otherwise a
`VaultError(INVALID_PARAMETERS)` is raised before anything is appended. -/
def redeem_and_transfer (packageId : String) (p : RedeemParams)
    (recipient : String) (tx : Tx) : Except SdkErr Unit × Tx :=
  if ¬ isValidCoinType p.inputCoinType then
    (.error (.generic ("Invalid coin type format: " ++ p.inputCoinType)), tx)
  else if ¬ isValidCoinType p.outputCoinType then
    (.error (.generic ("Invalid coin type format: " ++ p.outputCoinType)), tx)
  else
    match p.outputCoin with
    | .str s =>
        if ¬ isObjectIdString s then
          (.error (.vault .INVALID_PARAMETERS), tx)
        else
          let r := buildRedeemTx tx packageId p
          (.ok (), r.2 ++ [.transferObjs [r.1] (.pureAddr recipient)])
    | .handle _ =>
        let r := buildRedeemTx tx packageId p
        (.ok (), r.2 ++ [.transferObjs [r.1] (.pureAddr recipient)])

/-- Client-side deposit parameters (`DepositParams` without the output coin
type, which the client infers from the vault object). -/
structure ClientDepositParams where
  ownerCap : TxObjectInput
  vaultId : String
  inputCoin : TxObjectInput
  inputCoinType : String
deriving DecidableEq, Repr

/-- Translation of `RivaClient.deposit`: validates the input coin type,
requires a string `inputCoin` to be object-id shaped, and delegates to
`buildDepositTx`.  The output coin type is obtained from the external
chain-query collaborator (`inferOutputTypeFromVault`) and is therefore a
parameter `resolvedOutputType` here. -/
def deposit (packageId : String) (p : ClientDepositParams)
    (resolvedOutputType : String) (tx : Tx) : Except SdkErr Unit × Tx :=
  if ¬ isValidCoinType p.inputCoinType then
    (.error (.generic ("Invalid coin type format: " ++ p.inputCoinType)), tx)
  else
    match p.inputCoin with
    | .str s =>
        if ¬ isObjectIdString s then
          (.error (.vault .INVALID_PARAMETERS), tx)
        else
          let r := buildDepositTx tx packageId
            { ownerCap := p.ownerCap, vaultId := p.vaultId,
              inputCoin := p.inputCoin, inputCoinType := p.inputCoinType,
              outputCoinType := resolvedOutputType }
          (.ok (), r.2)
    | .handle _ =>
        let r := buildDepositTx tx packageId
          { ownerCap := p.ownerCap, vaultId := p.vaultId,
            inputCoin := p.inputCoin, inputCoinType := p.inputCoinType,
            outputCoinType := resolvedOutputType }
        (.ok (), r.2)

end RivaClient

lemma string_length_pos_of_ne_empty {s : String} (h : s ≠ "") :
    0 < s.length := by
  cases s with
  | mk cs =>
    cases cs with
    | nil => exact absurd rfl h
    | cons c t => simp [String.length]

/-- C5 counterexample: the rate `2^64` passes `validateRate` (it is
positive) yet is not u64-encodable, so `buildCreateVaultTx` appends the
`option::none` helper call and only then throws while serializing the main
call's `rate` argument — the accumulator is left with the helper call but
without the main call, a partial append. -/
theorem buildCreateVaultTx_partial_append_cex :
    (buildCreateVaultTx [] "0xpkg"
      ⟨18446744073709551616, .str "0xabc", 9, "SYM", "Name", "Desc", none,
        "0x2::sui::SUI", "0x2::usdc::USDC"⟩).1 =
      .error (.generic "Invalid u64 value") ∧
    (buildCreateVaultTx [] "0xpkg"
      ⟨18446744073709551616, .str "0xabc", 9, "SYM", "Name", "Desc", none,
        "0x2::sui::SUI", "0x2::usdc::USDC"⟩).2 = [optionNoneCmd] ∧
    ([optionNoneCmd] : Tx) ≠ ([] : Tx) := by
  refine ⟨rfl, rfl, by decide⟩

/-- C5 (amended): every builder function either appends its complete call
sequence or throws before appending anything, provided its u64/u8 scalar
arguments are BCS-encodable; `buildCreateVaultTx` then appends exactly its
helper-plus-main sequence, and the five single-call builders are
unconditionally atomic (on serialization failure the accumulator is
untouched). -/
theorem builders_atomic :
    (∀ (tx : Tx) (pid : String) (p : CreateVaultParams),
      0 ≤ p.rate → p.rate ≤ (MAX_U64 : Nat) → p.rateDecimals ≤ 255 →
      buildCreateVaultTx tx pid p =
        (.ok (), tx ++ createVaultCalls tx pid p)) ∧
    (∀ (tx : Tx) (pid : String) (p : MintParams),
      ∃ c, buildMintTx tx pid p = (.handle tx.length, tx ++ [c])) ∧
    (∀ (tx : Tx) (pid : String) (p : RedeemParams),
      ∃ c, buildRedeemTx tx pid p = (.handle tx.length, tx ++ [c])) ∧
    (∀ (tx : Tx) (pid : String) (p : DepositParams),
      ∃ c, buildDepositTx tx pid p = ((), tx ++ [c])) ∧
    (∀ (tx : Tx) (pid : String) (p : WithdrawParams),
      (∃ e, buildWithdrawTx tx pid p = (.error e, tx)) ∨
      (∃ c, buildWithdrawTx tx pid p =
        (.ok (.handle tx.length), tx ++ [c]))) ∧
    (∀ (tx : Tx) (pid : String) (p : SetRateParams),
      (∃ e, buildSetRateTx tx pid p = (.error e, tx)) ∨
      (∃ c, buildSetRateTx tx pid p = (.ok (), tx ++ [c]))) := by
  refine ⟨?_, ?_, ?_, ?_, ?_, ?_⟩
  · intro tx pid p h0 h1 h2
    cases hi : p.iconUrl with
    | none =>
      simp only [buildCreateVaultTx, createVaultCalls, hi]
      rw [if_pos ⟨h0, h1⟩, if_pos h2]
      simp [List.append_assoc, List.length_append]
    | some s =>
      by_cases hs : s.length > 0
      · simp only [buildCreateVaultTx, createVaultCalls, hi, if_pos hs]
        rw [if_pos ⟨h0, h1⟩, if_pos h2]
        simp [List.append_assoc, List.length_append]
      · simp only [buildCreateVaultTx, createVaultCalls, hi, if_neg hs]
        rw [if_pos ⟨h0, h1⟩, if_pos h2]
        simp [List.append_assoc, List.length_append]
  · intro tx pid p
    exact ⟨_, rfl⟩
  · intro tx pid p
    exact ⟨_, rfl⟩
  · intro tx pid p
    exact ⟨_, rfl⟩
  · intro tx pid p
    unfold buildWithdrawTx
    by_cases h : 0 ≤ p.amount ∧ p.amount ≤ (MAX_U64 : Nat)
    · rw [if_pos h]
      exact Or.inr ⟨_, rfl⟩
    · rw [if_neg h]
      exact Or.inl ⟨_, rfl⟩
  · intro tx pid p
    unfold buildSetRateTx
    by_cases h : 0 ≤ p.newRate ∧ p.newRate ≤ (MAX_U64 : Nat)
    · rw [if_pos h]
      exact Or.inr ⟨_, rfl⟩
    · rw [if_neg h]
      exact Or.inl ⟨_, rfl⟩

/-- Witness for the amended C5 at a fully encodable configuration. -/
theorem builders_atomic_witness :
    buildCreateVaultTx [] "0xpkg"
      ⟨2000000000, .str "0xabc", 9, "SYM", "Name", "Desc", none,
        "0x2::sui::SUI", "0x2::usdc::USDC"⟩ =
      (.ok (), [] ++ createVaultCalls [] "0xpkg"
        ⟨2000000000, .str "0xabc", 9, "SYM", "Name", "Desc", none,
          "0x2::sui::SUI", "0x2::usdc::USDC"⟩) :=
  builders_atomic.1 [] "0xpkg"
    ⟨2000000000, .str "0xabc", 9, "SYM", "Name", "Desc", none,
      "0x2::sui::SUI", "0x2::usdc::USDC"⟩
    (by decide) (by decide) (by decide)

/-- C6: `mint_and_transfer` with a string input coin that is not an
object id fails with `VaultError(INVALID_PARAMETERS)` and leaves the
accumulator unchanged. -/
theorem mint_and_transfer_rejects_nonObjectId (pid : String) (p : MintParams)
    (recipient : String) (tx : Tx) (s : String)
    (hin : isValidCoinType p.inputCoinType = true)
    (hout : isValidCoinType p.outputCoinType = true)
    (hs : p.inputCoin = .str s) (hbad : isObjectIdString s = false) :
    RivaClient.mint_and_transfer pid p recipient tx =
      (.error (.vault .INVALID_PARAMETERS), tx) := by
  unfold RivaClient.mint_and_transfer
  rw [if_neg (by simp [hin]), if_neg (by simp [hout]), hs]
  simp [hbad]

/-- Witness for C6: a bare amount `"1000000"` as the input coin is rejected
before any call is appended. -/
theorem mint_and_transfer_rejects_nonObjectId_witness :
    RivaClient.mint_and_transfer "0xpkg"
      ⟨"0xv", "0xm", .str "1000000", "0x2::sui::SUI", "0x2::usdc::USDC"⟩
      "0xrecipient" [] =
      (.error (.vault .INVALID_PARAMETERS), []) :=
  mint_and_transfer_rejects_nonObjectId "0xpkg"
    ⟨"0xv", "0xm", .str "1000000", "0x2::sui::SUI", "0x2::usdc::USDC"⟩
    "0xrecipient" [] "1000000" (by decide) (by decide) rfl (by decide)

/-- C7: for a valid configuration (positive u64 rate, decimals at most 18),
`buildCreateVaultTx` with no icon URL appends exactly one helper call
(`0x1::option::none`) followed by the main `create_vault` call, and with a
nonempty icon URL appends exactly two helper calls (`0x2::url::new_unsafe`
then `0x1::option::some`) followed by the main call; no other call is
produced. -/
theorem createVault_iconUrl_calls (tx : Tx) (pid : String)
    (p : CreateVaultParams) (hr0 : 0 < p.rate)
    (hr1 : p.rate ≤ (MAX_U64 : Nat)) (hd : p.rateDecimals ≤ 18) :
    (p.iconUrl = none →
      buildCreateVaultTx tx pid p =
        (.ok (), tx ++ [optionNoneCmd,
          createVaultMainCmd pid p tx.length])) ∧
    (∀ s, p.iconUrl = some s → s ≠ "" →
      buildCreateVaultTx tx pid p =
        (.ok (), tx ++ [urlNewCmd s, optionSomeCmd tx.length,
          createVaultMainCmd pid p (tx.length + 1)])) := by
  constructor
  · intro hi
    simp only [buildCreateVaultTx, hi]
    rw [if_pos ⟨by omega, hr1⟩, if_pos (by omega)]
    simp [List.append_assoc, List.length_append]
  · intro s hi hs
    have hlen : s.length > 0 := string_length_pos_of_ne_empty hs
    simp only [buildCreateVaultTx, hi, if_pos hlen]
    rw [if_pos ⟨by omega, hr1⟩, if_pos (by omega)]
    simp [List.append_assoc, List.length_append]

/-- Witness for C7 in both branches at a concrete configuration. -/
theorem createVault_iconUrl_calls_witness :
    buildCreateVaultTx [] "0xpkg"
      ⟨2000000000, .str "0xabc", 9, "SYM", "Name", "Desc", none,
        "0x2::sui::SUI", "0x2::usdc::USDC"⟩ =
      (.ok (), [optionNoneCmd,
        createVaultMainCmd "0xpkg"
          ⟨2000000000, .str "0xabc", 9, "SYM", "Name", "Desc", none,
            "0x2::sui::SUI", "0x2::usdc::USDC"⟩ 0]) ∧
    buildCreateVaultTx [] "0xpkg"
      ⟨2000000000, .str "0xabc", 9, "SYM", "Name", "Desc",
        some "https://icon.example/i.png",
        "0x2::sui::SUI", "0x2::usdc::USDC"⟩ =
      (.ok (), [urlNewCmd "https://icon.example/i.png", optionSomeCmd 0,
        createVaultMainCmd "0xpkg"
          ⟨2000000000, .str "0xabc", 9, "SYM", "Name", "Desc",
            some "https://icon.example/i.png",
            "0x2::sui::SUI", "0x2::usdc::USDC"⟩ 1]) := by
  constructor
  · exact (createVault_iconUrl_calls [] "0xpkg"
      ⟨2000000000, .str "0xabc", 9, "SYM", "Name", "Desc", none,
        "0x2::sui::SUI", "0x2::usdc::USDC"⟩
      (by decide) (by decide) (by decide)).1 rfl
  · exact (createVault_iconUrl_calls [] "0xpkg"
      ⟨2000000000, .str "0xabc", 9, "SYM", "Name", "Desc",
        some "https://icon.example/i.png",
        "0x2::sui::SUI", "0x2::usdc::USDC"⟩
      (by decide) (by decide) (by decide)).2
      "https://icon.example/i.png" rfl (by decide)

/-- C10: the non-transfer `redeem` performs no object-id shape check on a
string `outputCoin` — any string is passed through to the builder and the
redeem call is appended — while `redeem_and_transfer`, `mint` and `deposit`
reject non-object-id strings with `VaultError(INVALID_PARAMETERS)` before
appending anything. -/
theorem redeem_passthrough_vs_others (pid : String) (s : String)
    (hbad : isObjectIdString s = false) :
    (∀ (p : RedeemParams) (tx : Tx),
      isValidCoinType p.inputCoinType = true →
      isValidCoinType p.outputCoinType = true →
      p.outputCoin = .str s →
      RivaClient.redeem pid p tx =
        (.ok (.handle tx.length),
          tx ++ [.moveCall (pid ++ "::vault::redeem")
            [p.inputCoinType, p.outputCoinType]
            [.obj p.vaultId, .obj p.metadataId, .obj s]])) ∧
    (∀ (p : RedeemParams) (recipient : String) (tx : Tx),
      isValidCoinType p.inputCoinType = true →
      isValidCoinType p.outputCoinType = true →
      p.outputCoin = .str s →
      RivaClient.redeem_and_transfer pid p recipient tx =
        (.error (.vault .INVALID_PARAMETERS), tx)) ∧
    (∀ (p : MintParams) (tx : Tx),
      isValidCoinType p.inputCoinType = true →
      isValidCoinType p.outputCoinType = true →
      p.inputCoin = .str s →
      RivaClient.mint pid p tx =
        (.error (.vault .INVALID_PARAMETERS), tx)) ∧
    (∀ (p : RivaClient.ClientDepositParams) (resolvedOut : String) (tx : Tx),
      isValidCoinType p.inputCoinType = true →
      p.inputCoin = .str s →
      RivaClient.deposit pid p resolvedOut tx =
        (.error (.vault .INVALID_PARAMETERS), tx)) := by
  refine ⟨?_, ?_, ?_, ?_⟩
  · intro p tx hin hout hoc
    unfold RivaClient.redeem buildRedeemTx
    rw [if_neg (by simp [hin]), if_neg (by simp [hout]), hoc]
    simp [TxObjectInput.toArg]
  · intro p recipient tx hin hout hoc
    unfold RivaClient.redeem_and_transfer
    rw [if_neg (by simp [hin]), if_neg (by simp [hout]), hoc]
    simp [hbad]
  · intro p tx hin hout hic
    unfold RivaClient.mint
    rw [if_neg (by simp [hin]), if_neg (by simp [hout]), hic]
    simp [hbad]
  · intro p resolvedOut tx hin hic
    unfold RivaClient.deposit
    rw [if_neg (by simp [hin]), hic]
    simp [hbad]

/-- Witness for C10: a bare amount string flows through `redeem` untouched
but is rejected by `redeem_and_transfer`. -/
theorem redeem_passthrough_vs_others_witness :
    RivaClient.redeem "0xpkg"
      ⟨"0xv", "0xm", .str "1000000", "0x2::sui::SUI", "0x2::usdc::USDC"⟩
      [] =
      (.ok (.handle 0),
        [.moveCall ("0xpkg" ++ "::vault::redeem")
          ["0x2::sui::SUI", "0x2::usdc::USDC"]
          [.obj "0xv", .obj "0xm", .obj "1000000"]]) ∧
    RivaClient.redeem_and_transfer "0xpkg"
      ⟨"0xv", "0xm", .str "1000000", "0x2::sui::SUI", "0x2::usdc::USDC"⟩
      "0xrecipient" [] =
      (.error (.vault .INVALID_PARAMETERS), []) := by
  have h := redeem_passthrough_vs_others "0xpkg" "1000000" (by decide)
  exact ⟨h.1 ⟨"0xv", "0xm", .str "1000000", "0x2::sui::SUI",
      "0x2::usdc::USDC"⟩ [] (by decide) (by decide) rfl,
    h.2.1 ⟨"0xv", "0xm", .str "1000000", "0x2::sui::SUI",
      "0x2::usdc::USDC"⟩ "0xrecipient" [] (by decide) (by decide) rfl⟩
